import Mathlib

/-!
Verification of the pyeosim sensor-simulation pipeline.

Scalars are modelled as exact rationals (`ℚ`); numpy `.round()` is
round-half-to-even (`roundHalfEven`); xarray `a.where(cond, other)` is
elementwise `if cond then a else other`; arrays are `List ℚ` with
elementwise stage functions; the process-global numpy random generator is
modelled by sampler functions passed explicitly (mean, sigma and a draw
index map to the sample value).

Module mapping: namespace `SensorFn` embeds `pyeosim/_sensor.py`,
`ImagerFn` embeds `pyeosim/imager.py`, `DetectorFn` embeds
`pyeosim/_detector.py`; the pipeline engine of `pyeosim/_pipeline.py`
is embedded as `TransformerState` together with the `GenericTransformer`
functions.
-/

/-- numpy rounding: round half to even (banker's rounding), as used by
`numpy.round` and `DataArray.round`. -/
def roundHalfEven (x : ℚ) : ℤ :=
  if x - (⌊x⌋ : ℚ) < 1/2 then ⌊x⌋
  else if 1/2 < x - (⌊x⌋ : ℚ) then ⌊x⌋ + 1
  else if ⌊x⌋ % 2 = 0 then ⌊x⌋ else ⌊x⌋ + 1

/-- `.round()` as a rational-valued operation (numpy keeps the dtype). -/
def npRound (x : ℚ) : ℚ := (roundHalfEven x : ℚ)

theorem floor_le_roundHalfEven (x : ℚ) : ⌊x⌋ ≤ roundHalfEven x := by
  unfold roundHalfEven
  split_ifs <;> omega

theorem roundHalfEven_le_floor_add_one (x : ℚ) : roundHalfEven x ≤ ⌊x⌋ + 1 := by
  unfold roundHalfEven
  split_ifs <;> omega

theorem roundHalfEven_intCast (n : ℤ) : roundHalfEven (n : ℚ) = n := by
  unfold roundHalfEven
  simp [Int.floor_intCast]

theorem npRound_intCast (n : ℤ) : npRound (n : ℚ) = (n : ℚ) := by
  simp [npRound, roundHalfEven_intCast]

theorem roundHalfEven_le_of_lt (x : ℚ) (n : ℤ) (h : x < (n : ℚ)) :
    roundHalfEven x ≤ n := by
  have hf : ⌊x⌋ < n := Int.floor_lt.mpr h
  have := roundHalfEven_le_floor_add_one x
  omega

theorem le_roundHalfEven_of_le (x : ℚ) (n : ℤ) (h : (n : ℚ) ≤ x) :
    n ≤ roundHalfEven x := by
  have hf : n ≤ ⌊x⌋ := Int.le_floor.mpr h
  have := floor_le_roundHalfEven x
  omega

namespace SensorFn

/-- `_sensor.voltage_to_DN`: linear ADC of `pyeosim/_sensor.py`.
`max_DN = 2**bit_depth - 1`; `DN = adc_gain * (v_ref - voltage)`;
`DN = DN.round().where(DN < max_DN, max_DN)`;
`return DN.round().where(DN > 0, 0)` (the second `DN` is the rebound
clipped value). -/
def voltage_to_DN (voltage v_ref adc_gain : ℚ) (bit_depth : ℕ) : ℚ :=
  let max_DN : ℤ := 2 ^ bit_depth - 1
  let DN := adc_gain * (v_ref - voltage)
  let DN1 := if DN < (max_DN : ℚ) then npRound DN else (max_DN : ℚ)
  if DN1 > 0 then npRound DN1 else 0

/-- Elementwise application of `_sensor.voltage_to_DN` to a voltage array. -/
def voltage_to_DN_arr (voltages : List ℚ) (v_ref adc_gain : ℚ)
    (bit_depth : ℕ) : List ℚ :=
  voltages.map (fun v => voltage_to_DN v v_ref adc_gain bit_depth)

end SensorFn

namespace ImagerFn

/-- `imager.voltage_to_DN`: linear ADC of `pyeosim/imager.py` (TdiCmos
variant). There is no `adc_gain` parameter;
`DN = max_DN * (voltage / v_ref)`, then the same two-stage clip. -/
def voltage_to_DN (voltage v_ref : ℚ) (bit_depth : ℕ) : ℚ :=
  let max_DN : ℤ := 2 ^ bit_depth - 1
  let DN := (max_DN : ℚ) * (voltage / v_ref)
  let DN1 := if DN < (max_DN : ℚ) then npRound DN else (max_DN : ℚ)
  if DN1 > 0 then npRound DN1 else 0

/-- Elementwise application of `imager.voltage_to_DN` to a voltage array. -/
def voltage_to_DN_arr (voltages : List ℚ) (v_ref : ℚ)
    (bit_depth : ℕ) : List ℚ :=
  voltages.map (fun v => voltage_to_DN v v_ref bit_depth)

end ImagerFn

/-- The two-stage round/where clipping used by both ADC variants equals a
single round followed by a clamp to `[0, m]`. -/
theorem where_clip_eq_clamp (DN : ℚ) (m : ℤ) (hm : 0 ≤ m) :
    (if (if DN < (m : ℚ) then npRound DN else (m : ℚ)) > 0
     then npRound (if DN < (m : ℚ) then npRound DN else (m : ℚ))
     else 0)
    = ((max 0 (min (roundHalfEven DN) m) : ℤ) : ℚ) := by
  by_cases h : DN < (m : ℚ)
  · have hr : roundHalfEven DN ≤ m := roundHalfEven_le_of_lt DN m h
    simp only [if_pos h]
    by_cases hp : npRound DN > 0
    · have hz : (0 : ℤ) < roundHalfEven DN := by
        have := hp
        rw [npRound] at this
        exact_mod_cast this
      rw [if_pos hp]
      rw [npRound, npRound, roundHalfEven_intCast]
      rw [min_eq_left hr, max_eq_right (le_of_lt hz)]
    · have hz : roundHalfEven DN ≤ 0 := by
        by_contra hc
        push_neg at hc
        exact hp (by rw [npRound]; exact_mod_cast hc)
      rw [if_neg hp]
      rw [min_eq_left hr, max_eq_left hz]
      simp
  · have hge : (m : ℚ) ≤ DN := le_of_not_lt h
    have hr : m ≤ roundHalfEven DN := le_roundHalfEven_of_le DN m hge
    simp only [if_neg h]
    by_cases hp : (m : ℚ) > 0
    · have hmz : (0 : ℤ) < m := by exact_mod_cast hp
      rw [if_pos hp, npRound, roundHalfEven_intCast]
      rw [min_eq_right hr, max_eq_right (le_of_lt hmz)]
    · have hm0 : m = 0 := le_antisymm (by exact_mod_cast le_of_not_lt hp) hm
      have h0 : (0 : ℤ) ≤ roundHalfEven DN := by omega
      rw [if_neg hp, hm0, min_eq_right h0]
      simp

theorem two_pow_sub_one_nonneg (b : ℕ) : (0 : ℤ) ≤ 2 ^ b - 1 := by
  have : (0 : ℤ) < 2 ^ b := pow_pos (by norm_num) b
  omega

theorem sensor_vdn_eq_clamp (v r g : ℚ) (b : ℕ) :
    SensorFn.voltage_to_DN v r g b
      = ((max 0 (min (roundHalfEven (g * (r - v))) (2 ^ b - 1)) : ℤ) : ℚ) := by
  simp only [SensorFn.voltage_to_DN]
  exact where_clip_eq_clamp (g * (r - v)) (2 ^ b - 1) (two_pow_sub_one_nonneg b)

theorem imager_vdn_eq_clamp (v r : ℚ) (b : ℕ) :
    ImagerFn.voltage_to_DN v r b
      = ((max 0
            (min (roundHalfEven (((2 ^ b - 1 : ℤ) : ℚ) * (v / r)))
              (2 ^ b - 1)) : ℤ) : ℚ) := by
  simp only [ImagerFn.voltage_to_DN]
  exact where_clip_eq_clamp (((2 ^ b - 1 : ℤ) : ℚ) * (v / r)) (2 ^ b - 1)
    (two_pow_sub_one_nonneg b)

/-- A draw from the process-global numpy generator: mean, sigma and draw
index map to the sampled value. -/
def Sampler : Type := ℚ → ℚ → ℕ → ℚ

/-- A single scalar draw (mean and sigma map to the sampled value), used
where the source draws one value per array element. -/
def Sampler1 : Type := ℚ → ℚ → ℚ

/-- A sampler that returns the sigma argument it is given; used to observe
which distribution parameter a generator passes to numpy. -/
def sigmaProbe : Sampler := fun _ sigma _ => sigma

/-- A noise-free sampler (every draw is zero). -/
def zeroNoise : Sampler1 := fun _ _ => 0

namespace SensorFn

/-- `_sensor.electron_to_voltage`:
`e = electron_count.round().where(electron_count < full_well, full_well)`;
`return v_ref - (e * sense_node_gain)`. -/
def electron_to_voltage (electron_count v_ref sense_node_gain
    full_well : ℚ) : ℚ :=
  let e := if electron_count < full_well then npRound electron_count
           else full_well
  v_ref - e * sense_node_gain

/-- `_sensor.irradiance_to_flux`: `hc = 1.98644586e-25`;
`lambda_ = irradiance.wavelength * 1e-9`; `return (lambda_/hc) * irradiance`.
The wavelength coordinate (in nm) is the second argument. -/
def irradiance_to_flux (irradiance wavelength : ℚ) : ℚ :=
  let hc : ℚ := 1.98644586e-25
  let lambda_ := wavelength * 1e-9
  (lambda_ / hc) * irradiance

/-- `_sensor.PRNU`:
`return ones * numpy.random.normal(0, prnu_factor**2, size=ones.shape)` —
note the squared sigma argument. -/
def PRNU (normal : Sampler) (ones : List ℚ) (prnu_factor : ℚ) : List ℚ :=
  List.zipWith (fun o s => o * s) ones
    ((List.range ones.length).map (normal 0 (prnu_factor ^ 2)))

end SensorFn

namespace ImagerFn

/-- `imager.add_gaussian_noise`:
`gaus_noise = numpy.random.normal(0, sigma, ...)`;
`return (electron_count + gaus_noise).round()`. -/
def add_gaussian_noise (normal : Sampler1) (electron_count sigma : ℚ) : ℚ :=
  npRound (electron_count + normal 0 sigma)

/-- `imager.electron_to_voltage`:
`e = electron_count.where(electron_count < full_well, full_well)`;
`e = add_gaussian_noise(e, read_noise).round()`;
`return v_ref * (e * sense_node_gain)`. -/
def electron_to_voltage (normal : Sampler1) (electron_count v_ref
    sense_node_gain full_well read_noise : ℚ) : ℚ :=
  let e := if electron_count < full_well then electron_count else full_well
  let e1 := npRound (add_gaussian_noise normal e read_noise)
  v_ref * (e1 * sense_node_gain)

/-- `imager.energy_to_quantity`: `hc = 1.98644586e-25`;
`lambda_ = energy.wavelength * 1e-9`; `return (lambda_/hc) * energy`.
The wavelength coordinate (in nm) is the second argument. -/
def energy_to_quantity (energy wavelength : ℚ) : ℚ :=
  let hc : ℚ := 1.98644586e-25
  let lambda_ := wavelength * 1e-9
  (lambda_ / hc) * energy

/-- `imager.PRNU`:
`return ones * numpy.random.normal(0, prnu_factor, size=ones.shape)` —
sigma is the bare factor here. -/
def PRNU (normal : Sampler) (ones : List ℚ) (prnu_factor : ℚ) : List ℚ :=
  List.zipWith (fun o s => o * s) ones
    ((List.range ones.length).map (normal 0 prnu_factor))

end ImagerFn

namespace DetectorFn

/-- `_detector._irradiance_to_flux`: same shape as the other two
conversions but with the truncated constant `hc = 1.99e-25`. -/
def _irradiance_to_flux (irradiance wavelength : ℚ) : ℚ :=
  let hc : ℚ := 1.99e-25
  let lambda_ := wavelength * 1e-9
  (lambda_ / hc) * irradiance

end DetectorFn

/-- The exact Planck-constant-times-c value named in the specification. -/
def hcPlanck : ℚ := 1.98644586e-25

/-- Python exceptions raised by the pipeline engine. -/
inductive PyError where
  | valueError (msg : String)
  | runtimeError (msg : String)
  | typeError (msg : String)
  | indexError (msg : String)
  | nameError (msg : String)
  | importError (msg : String)
deriving DecidableEq

/-- An xarray signal: flat data values, named dimensions, a scalar
wavelength coordinate (in nm) and the attrs metadata record. -/
structure Signal where
  data : List ℚ
  dims : List String
  wavelength : ℚ
  attrs : List (String × String)
deriving DecidableEq

/-- `signal.transpose('y', 'x', ...)` succeeds exactly when both spatial
dims are present. -/
def Signal.hasXY (s : Signal) : Bool :=
  s.dims.contains "x" && s.dims.contains "y"

/-- The successful transpose: `y` and `x` first, remaining dims after. -/
def Signal.transposeYX (s : Signal) : Signal :=
  { s with dims := "y" :: "x" :: s.dims.filter (fun d => d ≠ "y" ∧ d ≠ "x") }

/-- A pipeline stage body. The Python step triple
`(name, func, params)` is applied as `signal.pipe(func, **params)`; the
resolved keyword params are folded into the closure. The natural-number
argument is the cursor into the global random stream, returned advanced
past the draws the stage consumed. -/
def StepFn : Type := Signal → ℕ → Signal × ℕ

/-- One entry of the `steps` list. -/
structure Step where
  name : String
  fn : StepFn

/-- Python dict update `d[k] = v` on an association list with unique keys:
replace in place if the key exists, else append. -/
def dictSet {α : Type} : List (String × α) → String → α → List (String × α)
  | [], k, v => [(k, v)]
  | (k0, v0) :: rest, k, v =>
      if k0 = k then (k, v) :: rest else (k0, v0) :: dictSet rest k v

/-- Python dict lookup `d[k]` as an option. -/
def dictGet {α : Type} : List (String × α) → String → Option α
  | [], _ => none
  | (k0, v0) :: rest, k => if k0 = k then some v0 else dictGet rest k

/-- A configuration value as seen by `json.dumps`: `some s` serializes to
`s`, `none` is not JSON-serializable. -/
def PyValue : Type := Option String

/-- The `default=lambda o: '<Not stored>'` fallback of
`GenericTransformer._apply_steps`: a non-serializable value is rendered as
the placeholder instead of raising. -/
def dumpsValue : PyValue → String
  | some s => s
  | none => "<Not stored>"

/-- `json.dumps(params, default=lambda o: '<Not stored>')`: total
serialization of the parameter record. -/
def jsonDumps (params : List (String × PyValue)) : String :=
  String.intercalate ", "
    (params.map (fun kv => kv.1 ++ ": " ++ dumpsValue kv.2))

/-- The mutable state of a `GenericTransformer` (`pyeosim/_pipeline.py`).
`params` stands for the remaining instance attributes, i.e.
`self.__dict__` minus `steps`, `step_outputs` and `store_steps`, exactly
the record `get_params` returns; `name` is the concrete class name. -/
structure TransformerState where
  name : String
  params : List (String × PyValue)
  store_steps : Bool
  step_outputs : List (String × Signal)
  steps : List Step
  fitted : Bool

namespace GenericTransformer

/-- `GenericTransformer.get_params()` (full, not numeric-only form). -/
def get_params (s : TransformerState) : List (String × PyValue) :=
  s.params

/-- `GenericTransformer.fit`: runs `self._set_steps()` (whose result is
the `set_steps` argument, built by the subclass from its configuration)
and sets `self._fitted = True`. -/
def fit (set_steps : List Step) (s : TransformerState) : TransformerState :=
  { s with steps := set_steps, fitted := true }

/-- `GenericTransformer._apply_steps`: copies the input metadata, folds
the steps over the signal (recording each named output when
`store_steps`), then stamps the metadata copy with the serialized params
under the `<classname>_sensor_simulation` key and attaches it to the
result. Returns the new signal, the updated transformer state and the
advanced random cursor. -/
def _apply_steps (s : TransformerState) (signal : Signal) (pos : ℕ) :
    Signal × TransformerState × ℕ :=
  let meta := signal.attrs
  let folded := s.steps.foldl
    (fun (acc : Signal × List (String × Signal) × ℕ) (st : Step) =>
      let out := st.fn acc.1 acc.2.2
      (out.1,
       if s.store_steps then dictSet acc.2.1 st.name out.1 else acc.2.1,
       out.2))
    (signal, s.step_outputs, pos)
  let k := s.name ++ "_sensor_simulation"
  let newMeta := dictSet meta k (jsonDumps (get_params s))
  ({ folded.1 with attrs := newMeta },
   { s with step_outputs := folded.2.1 },
   folded.2.2)

/-- `GenericTransformer.transform`: transpose to `(y, x, ...)` (raising
`ValueError` when a spatial coordinate is missing), then apply the steps
when fitted, else raise `RuntimeError`. -/
def transform (s : TransformerState) (signal : Signal) (pos : ℕ) :
    Except PyError Signal × TransformerState × ℕ :=
  if signal.hasXY then
    if s.fitted then
      let r := _apply_steps s signal.transposeYX pos
      (.ok r.1, r.2.1, r.2.2)
    else (.error (.runtimeError "Transformer Instance not fitted"), s, pos)
  else (.error (.valueError "x or y coordinate missing"), s, pos)

end GenericTransformer

/-- A Python list subscript: an integer index or a string. -/
inductive PyIndex where
  | int (i : ℤ)
  | str (s : String)

/-- Python `list[subscript]` semantics: integer indices (with negative
wrap-around) succeed in range and raise `IndexError` out of range; a
string subscript always raises `TypeError`. -/
def pyListGet {α : Type} (xs : List α) : PyIndex → Except PyError α
  | .int i =>
      let j := if i < 0 then i + xs.length else i
      if h : 0 ≤ j ∧ j.toNat < xs.length then .ok (xs.get ⟨j.toNat, h.2⟩)
      else .error (.indexError "list index out of range")
  | .str _ => .error (.typeError "list indices must be integers or slices, not str")

namespace GenericTransformer

/-- `GenericTransformer.apply_step`: `step = self.steps[step_name]` (a
Python list subscripted with the step-name string), then
`signal.pipe(step[1], **step[2])`. -/
def apply_step (s : TransformerState) (signal : Signal) (pos : ℕ)
    (step_name : String) : Except PyError Signal :=
  match pyListGet s.steps (.str step_name) with
  | .error e => .error e
  | .ok st => .ok (st.fn signal pos).1

end GenericTransformer

/-- Evaluating a bare Python name against the names bound in a module
namespace: an unbound name raises `NameError`. -/
def pyName (ns : List String) (nm : String) : Except PyError Unit :=
  if ns.contains nm then .ok ()
  else .error (.nameError ("name " ++ nm ++ " is not defined"))

/-- The public top-level names of `pyeosim/datasets.py` (its functions and
module constants; `_dload` and the other underscore names are private).
There is no `dload`. -/
def datasetsModuleNames : List String :=
  ["names", "DATA_PATHS", "B", "os", "pandas", "xarray"]

/-- `from .datasets import dload` at `sensor.py` line 6: importing a name
the module does not bind raises `ImportError`, so `pyeosim.sensor` never
finishes loading. -/
def fromDatasetsImportDload : Except PyError Unit :=
  if datasetsModuleNames.contains "dload" then .ok ()
  else .error (.importError "cannot import name dload from pyeosim.datasets")

/-- The names `sensor.py`'s module scope would hold at class-body time had
its imports succeeded: the star import of `_sensor.py`'s public names,
`dload`, `gaussian_isotropic`, `TreeView_2` and `band_QE` (the only names
imported from `.spectral`), `GenericTransformer`, the two modules and the
two classes of the file itself. `TreeView_1` is not among them. -/
def sensorModuleNames : List String :=
  ["add_column_offset", "add_dark_signal", "add_gaussian_noise",
   "add_ktc_noise", "add_photon_noise", "add_prnu",
   "apply_source_follower_gain", "DSNU", "electron_to_voltage",
   "electron_to_voltage_ktc", "irradiance_to_flux", "photon_mean",
   "photon_to_electron", "PRNU", "radiance_to_irradiance_2",
   "radiance_to_irradiance", "voltage_to_DN", "return_equal_xarray",
   "dload", "gaussian_isotropic", "TreeView_2", "band_QE",
   "GenericTransformer", "numpy", "xarray", "SimpleSensor", "TeledyneCMOS"]

namespace SimpleSensor

/-- `sensor.SimpleSensor.__init__`: assigns the plain configuration
attributes (collected in `params`), then at line 63 evaluates
`self.spectral_response = TreeView_1()` — a name lookup in the module
scope — and only as its final statement runs `self.fit(None)`. The step
list `_set_steps` builds from the configuration is the `set_steps`
argument. -/
def init (set_steps : List Step) (params : List (String × PyValue))
    (store_steps : Bool) : Except PyError TransformerState :=
  match pyName sensorModuleNames "TreeView_1" with
  | .error e => .error e
  | .ok _ =>
      .ok (GenericTransformer.fit set_steps
        { name := "SimpleSensor", params := params,
          store_steps := store_steps, step_outputs := [], steps := [],
          fitted := false })

end SimpleSensor

/-- Empirical mean of an array (`DataArray.mean()`). -/
def listMean (xs : List ℚ) : ℚ := xs.sum / xs.length

namespace ImagerFn

/-- `imager.DSNU`: `sigma = integration_time * dark_current * dark_factor`;
`fpn = ones * numpy.random.lognormal(0, sigma, size=ones.shape)`;
`return fpn - fpn.mean()`. -/
def DSNU (lognormal : Sampler) (ones : List ℚ)
    (dark_current integration_time dark_factor : ℚ) : List ℚ :=
  let sigma := integration_time * dark_current * dark_factor
  let fpn := List.zipWith (fun o s => o * s) ones
    ((List.range ones.length).map (lognormal 0 sigma))
  fpn.map (fun x => x - listMean fpn)

/-- `imager.CONU`:
`fpn = ones.isel(band=0) * numpy.random.normal(0, offset_factor, ...)`
(the ones row is already one-dimensional here; the coordinate drops are
shape bookkeeping with no numeric effect). -/
def CONU (normal : Sampler) (ones : List ℚ) (offset_factor : ℚ) : List ℚ :=
  List.zipWith (fun o s => o * s) ones
    ((List.range ones.length).map (normal 0 offset_factor))

end ImagerFn

/-- A fixed-pattern-noise attribute of `TdiCmos`: `None` before `fit`, the
scalar `0` when the corresponding factor is zero, else the sampled array. -/
inductive FPNValue where
  | pyNone
  | scalar (q : ℚ)
  | arr (xs : List ℚ)
deriving DecidableEq

/-- `imager.TdiCmos`: the generic transformer state plus the persistent
fixed-pattern-noise attributes and the configuration values `fit` reads.
The remaining configuration attributes live in `base.params`. -/
structure TdiCmos where
  base : TransformerState
  dark_current : ℚ
  integration_time : ℚ
  dark_factor : ℚ
  prnu_factor : ℚ
  offset_factor : ℚ
  DSNU : FPNValue
  PRNU : FPNValue
  column_offset_FPN : FPNValue

namespace TdiCmos

/-- `TdiCmos.fit`: builds the ones-shaped reference from the signal,
samples DSNU, PRNU and CONU (or assigns the scalar `0` when the matching
factor is zero), then runs `_set_steps` and sets `_fitted = True`.
`lognormal`/`normal` model the global numpy generator; `set_steps` is the
step list `_set_steps` builds from the updated instance (its stage
closures include the skimage-backed spatial resampling treated as an
external collaborator). -/
def fit (lognormal normal : Sampler) (set_steps : TdiCmos → List Step)
    (t : TdiCmos) (signal : Signal) : TdiCmos :=
  let ones := signal.data.map (fun _ => (1 : ℚ))
  let t1 := { t with
    DSNU := if t.dark_factor = 0 then .scalar 0
            else .arr (ImagerFn.DSNU lognormal ones t.dark_current
              t.integration_time t.dark_factor),
    PRNU := if t.prnu_factor = 0 then .scalar 0
            else .arr (ImagerFn.PRNU normal ones t.prnu_factor),
    column_offset_FPN := if t.offset_factor = 0 then .scalar 0
            else .arr (ImagerFn.CONU normal ones t.offset_factor) }
  { t1 with base := { t1.base with steps := set_steps t1, fitted := true } }

/-- `TdiCmos.transform` is `super().transform(signal)`: the generic
transformer transform acting on the embedded base state. -/
def transform (t : TdiCmos) (signal : Signal) (pos : ℕ) :
    Except PyError Signal × TdiCmos × ℕ :=
  let r := GenericTransformer.transform t.base signal pos
  (r.1, { t with base := r.2.1 }, r.2.2)

end TdiCmos

theorem dictGet_dictSet_self {α : Type} (d : List (String × α)) (k : String)
    (v : α) : dictGet (dictSet d k v) k = some v := by
  induction d with
  | nil => simp [dictSet, dictGet]
  | cons hd tl ih =>
      by_cases hk : hd.1 = k
      · simp [dictSet, dictGet, hk]
      · simp [dictSet, dictGet, hk, ih]

theorem dictGet_dictSet_ne {α : Type} (d : List (String × α)) (k k0 : String)
    (v : α) (h : k0 ≠ k) : dictGet (dictSet d k v) k0 = dictGet d k0 := by
  have h0 : ¬(k = k0) := fun he => h he.symm
  induction d with
  | nil => simp [dictSet, dictGet, h0]
  | cons hd tl ih =>
      obtain ⟨k1, v1⟩ := hd
      by_cases hk : k1 = k
      · subst hk
        simp [dictSet, dictGet, h0]
      · simp only [dictSet, if_neg hk, dictGet, ih]

theorem clamp_cast_bounds (z m : ℤ) (hm : 0 ≤ m) :
    (0 : ℚ) ≤ ((max 0 (min z m) : ℤ) : ℚ)
      ∧ ((max 0 (min z m) : ℤ) : ℚ) ≤ (m : ℚ) := by
  constructor
  · exact_mod_cast (by omega : (0 : ℤ) ≤ max 0 (min z m))
  · exact_mod_cast (by omega : max 0 (min z m) ≤ m)

/-- A signal with both spatial coordinates. -/
def demoXYSignal : Signal :=
  { data := [1, 2], dims := ["y", "x"], wavelength := 500, attrs := [] }

/-- A signal missing the spatial coordinates (band axis only). -/
def demoNoXYSignal : Signal :=
  { data := [1, 2], dims := ["band"], wavelength := 500, attrs := [] }

/-- A freshly constructed (never fitted) transformer. -/
def demoUnfittedState : TransformerState :=
  { name := "TdiCmos", params := [], store_steps := false,
    step_outputs := [], steps := [], fitted := false }

/-- The ADC stage of the TdiCmos pipeline under its default configuration
(`adc_vref = .5`, `bit_depth = 14`), with its resolved keyword params
folded into the closure. -/
def demoAdcStep : Step :=
  { name := "voltage to DN",
    fn := fun sig pos =>
      ({ sig with data :=
          sig.data.map (fun v => ImagerFn.voltage_to_DN v (1/2) 14) }, pos) }

/-- A fitted transformer whose step list contains the named ADC stage. -/
def demoFittedState : TransformerState :=
  { name := "TdiCmos", params := [], store_steps := false,
    step_outputs := [], steps := [demoAdcStep], fitted := true }

/-- A fitted transformer with an empty step list, one serializable and one
non-serializable configuration attribute. -/
def demoProvState : TransformerState :=
  { name := "TdiCmos",
    params := [("full_well", some "30000"), ("spectral_response", none)],
    store_steps := false, step_outputs := [], steps := [], fitted := true }

/-- An input signal whose metadata already carries a provenance entry under
the key the transformer is about to write. -/
def demoProvSignal : Signal :=
  { data := [1], dims := ["y", "x"], wavelength := 500,
    attrs := [("TdiCmos_sensor_simulation", "prior"), ("res", "10")] }

/-- Claim C1: every `transform` call on a fitted TdiCmos sensor model
leaves the persistent fixed-pattern-noise attributes DSNU, PRNU and
column-offset untouched, so a second `transform` on the resulting
instance still reads the identical arrays; only `fit` reassigns them. -/
theorem claim1_transform_preserves_fpn (t : TdiCmos) (sig1 sig2 : Signal)
    (p1 p2 : ℕ) :
    ((TdiCmos.transform t sig1 p1).2.1.DSNU = t.DSNU
      ∧ (TdiCmos.transform t sig1 p1).2.1.PRNU = t.PRNU
      ∧ (TdiCmos.transform t sig1 p1).2.1.column_offset_FPN
          = t.column_offset_FPN)
    ∧ ((TdiCmos.transform (TdiCmos.transform t sig1 p1).2.1 sig2 p2).2.1.DSNU
          = t.DSNU
      ∧ (TdiCmos.transform (TdiCmos.transform t sig1 p1).2.1 sig2 p2).2.1.PRNU
          = t.PRNU
      ∧ (TdiCmos.transform (TdiCmos.transform t sig1 p1).2.1 sig2
          p2).2.1.column_offset_FPN = t.column_offset_FPN) :=
  ⟨⟨rfl, rfl, rfl⟩, ⟨rfl, rfl, rfl⟩⟩

/-- Claim C2 (amended): for every input signal that carries both spatial
coordinates, `transform` on an unfitted transformer raises the not-fitted
`RuntimeError`; a signal missing `x`/`y` instead raises the missing
coordinate `ValueError` before the fitted check (see the
counterexample). -/
theorem claim2_unfitted_transform_raises_notfitted (s : TransformerState)
    (sig : Signal) (pos : ℕ) (hxy : sig.hasXY = true)
    (hf : s.fitted = false) :
    (GenericTransformer.transform s sig pos).1
      = .error (.runtimeError "Transformer Instance not fitted") := by
  simp [GenericTransformer.transform, hxy, hf]

theorem claim2_witness :
    (GenericTransformer.transform demoUnfittedState demoXYSignal 0).1
      = .error (.runtimeError "Transformer Instance not fitted") :=
  claim2_unfitted_transform_raises_notfitted demoUnfittedState demoXYSignal 0
    (by decide) (by rfl)

theorem claim2_counterexample :
    (GenericTransformer.transform demoUnfittedState demoNoXYSignal 0).1
      = .error (.valueError "x or y coordinate missing")
    ∧ (GenericTransformer.transform demoUnfittedState demoNoXYSignal 0).1
      ≠ .error (.runtimeError "Transformer Instance not fitted") := by
  refine ⟨rfl, ?_⟩
  simp [GenericTransformer.transform, demoUnfittedState, demoNoXYSignal,
    Signal.hasXY]

/-- Claim C3: `apply_step` subscripts the Python list `self.steps` with
the step-name string, so it raises `TypeError` for every name — including
a name present in the step list — instead of applying the named stage (or
raising a lookup error for an absent one) as its own docstring promises. -/
theorem claim3_apply_step_always_type_error :
    GenericTransformer.apply_step demoFittedState demoXYSignal 0
        "voltage to DN"
      = .error (.typeError "list indices must be integers or slices, not str")
    ∧ "voltage to DN" ∈ demoFittedState.steps.map Step.name
    ∧ ∀ (s : TransformerState) (sig : Signal) (pos : ℕ) (nm : String),
        GenericTransformer.apply_step s sig pos nm
          = .error
              (.typeError "list indices must be integers or slices, not str") :=
  ⟨rfl, by simp [demoFittedState, demoAdcStep], fun _ _ _ _ => rfl⟩

/-- Claim C4 (amended): the `_sensor.py` ADC computes
`round(adc_gain * (v_ref - voltage))` clamped to `[0, 2^bit_depth - 1]`,
but the `imager.py` (TdiCmos) ADC has no gain parameter and computes
`round((2^bit_depth - 1) * (voltage / v_ref))` under the same clamp. -/
theorem claim4_adc_formulas (v r g : ℚ) (b : ℕ) :
    SensorFn.voltage_to_DN v r g b
      = ((max 0 (min (roundHalfEven (g * (r - v))) (2 ^ b - 1)) : ℤ) : ℚ)
    ∧ ImagerFn.voltage_to_DN v r b
      = ((max 0
            (min (roundHalfEven (((2 ^ b - 1 : ℤ) : ℚ) * (v / r)))
              (2 ^ b - 1)) : ℤ) : ℚ) :=
  ⟨sensor_vdn_eq_clamp v r g b, imager_vdn_eq_clamp v r b⟩

theorem claim4_counterexample :
    ImagerFn.voltage_to_DN 1 1 2 = 3
    ∧ SensorFn.voltage_to_DN 1 1 3 2 = 0
    ∧ ImagerFn.voltage_to_DN 1 1 2 ≠ SensorFn.voltage_to_DN 1 1 3 2 := by
  refine ⟨?_, ?_, ?_⟩ <;>
    norm_num [ImagerFn.voltage_to_DN, SensorFn.voltage_to_DN, npRound,
      roundHalfEven]

/-- Claim C5: every element either ADC variant outputs lies in
`[0, 2^bit_depth - 1]` inclusive, for every voltage array and every
parameter choice. -/
theorem claim5_dn_bounds (vs ws : List ℚ) (r g r2 : ℚ) (b b2 : ℕ) (d e : ℚ)
    (hd : d ∈ SensorFn.voltage_to_DN_arr vs r g b)
    (he : e ∈ ImagerFn.voltage_to_DN_arr ws r2 b2) :
    (0 ≤ d ∧ d ≤ ((2 ^ b - 1 : ℤ) : ℚ))
    ∧ (0 ≤ e ∧ e ≤ ((2 ^ b2 - 1 : ℤ) : ℚ)) := by
  constructor
  · obtain ⟨v, _, rfl⟩ := List.mem_map.mp hd
    rw [sensor_vdn_eq_clamp]
    exact clamp_cast_bounds _ _ (two_pow_sub_one_nonneg b)
  · obtain ⟨w, _, rfl⟩ := List.mem_map.mp he
    rw [imager_vdn_eq_clamp]
    exact clamp_cast_bounds _ _ (two_pow_sub_one_nonneg b2)

theorem claim5_witness :
    (0 ≤ SensorFn.voltage_to_DN 2 1 1 4
      ∧ SensorFn.voltage_to_DN 2 1 1 4 ≤ ((2 ^ 4 - 1 : ℤ) : ℚ))
    ∧ (0 ≤ ImagerFn.voltage_to_DN 3 2 4
      ∧ ImagerFn.voltage_to_DN 3 2 4 ≤ ((2 ^ 4 - 1 : ℤ) : ℚ)) :=
  claim5_dn_bounds [2] [3] 1 1 2 4 4
    (SensorFn.voltage_to_DN 2 1 1 4) (ImagerFn.voltage_to_DN 3 2 4)
    (by simp [SensorFn.voltage_to_DN_arr])
    (by simp [ImagerFn.voltage_to_DN_arr])

/-- Claim C6: both `electron_to_voltage` variants clip the electron count
at `full_well` before converting, so an input at or above `full_well`
produces exactly the voltage that `full_well` electrons produce (for the
imager variant, under the same read-noise draw). -/
theorem claim6_full_well_clip (normal : Sampler1) (c v_ref g fw rn : ℚ)
    (h : fw ≤ c) :
    SensorFn.electron_to_voltage c v_ref g fw
      = SensorFn.electron_to_voltage fw v_ref g fw
    ∧ ImagerFn.electron_to_voltage normal c v_ref g fw rn
      = ImagerFn.electron_to_voltage normal fw v_ref g fw rn := by
  have h1 : ¬(c < fw) := not_lt.mpr h
  have h2 : ¬(fw < fw) := lt_irrefl fw
  constructor
  · simp [SensorFn.electron_to_voltage, h1, h2]
  · simp [ImagerFn.electron_to_voltage, h1, h2]

theorem claim6_witness :
    SensorFn.electron_to_voltage 10 3 (1/2) 3
      = SensorFn.electron_to_voltage 3 3 (1/2) 3
    ∧ ImagerFn.electron_to_voltage zeroNoise 10 3 (1/2) 3 1
      = ImagerFn.electron_to_voltage zeroNoise 3 3 (1/2) 3 1 :=
  claim6_full_well_clip zeroNoise 10 3 (1/2) 3 1 (by norm_num)

/-- Claim C7 (amended): `imager.energy_to_quantity` and
`_sensor.irradiance_to_flux` convert with
`energy * (wavelength * 1e-9) / hc`, `hc = 1.98644586e-25`; the
`_detector._irradiance_to_flux` implementation uses the same formula but
the truncated constant `hc = 1.99e-25`. -/
theorem claim7_energy_conversion_formulas (x w : ℚ) :
    ImagerFn.energy_to_quantity x w = x * (w * 1e-9) / hcPlanck
    ∧ SensorFn.irradiance_to_flux x w = x * (w * 1e-9) / hcPlanck
    ∧ DetectorFn._irradiance_to_flux x w
        = x * (w * 1e-9) / (1.99e-25 : ℚ) := by
  refine ⟨?_, ?_, ?_⟩ <;>
    · simp only [ImagerFn.energy_to_quantity, SensorFn.irradiance_to_flux,
        DetectorFn._irradiance_to_flux, hcPlanck]
      ring

theorem claim7_counterexample :
    DetectorFn._irradiance_to_flux 1 1 ≠ 1 * ((1 : ℚ) * 1e-9) / hcPlanck
    ∧ DetectorFn._irradiance_to_flux 1 1 ≠ ImagerFn.energy_to_quantity 1 1 := by
  constructor <;>
    norm_num [DetectorFn._irradiance_to_flux, ImagerFn.energy_to_quantity,
      hcPlanck]

/-- Claim C8 (amended): `imager.PRNU` multiplies the ones reference by
zero-mean normal draws whose sigma argument is `prnu_factor` itself and
keeps the reference shape; `_sensor.PRNU` instead passes
`prnu_factor ** 2` as sigma, i.e. it equals the imager generator
evaluated at the squared factor. -/
theorem claim8_prnu_sigma_convention (normal : Sampler) (ones : List ℚ)
    (f : ℚ) :
    ImagerFn.PRNU normal ones f
      = List.zipWith (fun o s => o * s) ones
          ((List.range ones.length).map (normal 0 f))
    ∧ (ImagerFn.PRNU normal ones f).length = ones.length
    ∧ SensorFn.PRNU normal ones f = ImagerFn.PRNU normal ones (f ^ 2) := by
  refine ⟨rfl, ?_, rfl⟩
  simp [ImagerFn.PRNU]

theorem claim8_counterexample :
    SensorFn.PRNU sigmaProbe [1] (1/2) = [1/4]
    ∧ ImagerFn.PRNU sigmaProbe [1] (1/2) = [1/2]
    ∧ SensorFn.PRNU sigmaProbe [1] (1/2)
        ≠ ImagerFn.PRNU sigmaProbe [1] (1/2) := by
  refine ⟨?_, ?_, ?_⟩ <;>
    norm_num [SensorFn.PRNU, ImagerFn.PRNU, sigmaProbe, List.range,
      List.range.loop]

/-- Claim C9 (amended): the signal `_apply_steps` returns carries the
input metadata unchanged at every key except the provenance key
`<classname>_sensor_simulation`, which is set (overwriting any prior
entry of that key — see the counterexample) to the serialized
configuration; serialization is total, rendering non-serializable values
as the `<Not stored>` placeholder instead of raising. -/
theorem claim9_metadata_provenance (s : TransformerState) (sig : Signal)
    (pos : ℕ) (key : String) (h : key ≠ s.name ++ "_sensor_simulation") :
    dictGet (GenericTransformer._apply_steps s sig pos).1.attrs key
      = dictGet sig.attrs key
    ∧ dictGet (GenericTransformer._apply_steps s sig pos).1.attrs
        (s.name ++ "_sensor_simulation")
      = some (jsonDumps (GenericTransformer.get_params s))
    ∧ jsonDumps s.params
      = jsonDumps (s.params.map (fun kv => (kv.1, some (dumpsValue kv.2)))) := by
  refine ⟨?_, ?_, ?_⟩
  · exact dictGet_dictSet_ne sig.attrs _ key _ h
  · exact dictGet_dictSet_self sig.attrs _ _
  · simp only [jsonDumps, List.map_map]
    rfl

theorem claim9_witness :
    dictGet (GenericTransformer._apply_steps demoProvState demoProvSignal
        0).1.attrs "res"
      = dictGet demoProvSignal.attrs "res"
    ∧ dictGet (GenericTransformer._apply_steps demoProvState demoProvSignal
        0).1.attrs (demoProvState.name ++ "_sensor_simulation")
      = some (jsonDumps (GenericTransformer.get_params demoProvState))
    ∧ jsonDumps demoProvState.params
      = jsonDumps (demoProvState.params.map
          (fun kv => (kv.1, some (dumpsValue kv.2)))) :=
  claim9_metadata_provenance demoProvState demoProvSignal 0 "res" (by decide)

theorem claim9_counterexample :
    dictGet (GenericTransformer._apply_steps demoProvState demoProvSignal
        0).1.attrs "TdiCmos_sensor_simulation"
      = some "full_well: 30000, spectral_response: <Not stored>"
    ∧ dictGet demoProvSignal.attrs "TdiCmos_sensor_simulation" = some "prior"
    ∧ (some "full_well: 30000, spectral_response: <Not stored>" : Option String)
      ≠ some "prior" := by
  refine ⟨rfl, rfl, ?_⟩
  decide

/-- Claim C10: the constructor's evident intent is to return a fitted
instance (its final statement is `self.fit(None)`), but construction can
never get there: importing `pyeosim.sensor` already fails because
`datasets.py` binds no `dload`, and even in a loaded module scope the
constructor raises `NameError` at the `TreeView_1()` assignment (line 63)
before the `fit` call — so no freshly constructed, fitted `SimpleSensor`
ever exists. -/
theorem claim10_simplesensor_init_raises (set_steps : List Step)
    (params : List (String × PyValue)) (store : Bool) :
    fromDatasetsImportDload
      = .error (.importError "cannot import name dload from pyeosim.datasets")
    ∧ SimpleSensor.init set_steps params store
      = .error (.nameError "name TreeView_1 is not defined") :=
  ⟨rfl, rfl⟩
